import Mathlib

/-!
Verification of the input-normalization pipeline of the stt repository
(src/record.py and src/recordstreamlit.py) against its specification.

The two Python scripts are shallowly embedded: external processes
(ffmpeg, yt-dlp) are modelled by the exit status and diagnostic stream
they return (`ProcResult`), the file system by the list of paths that
currently exist (`FileSys`), fallible Python code by `Except`, and each
request handler by a pure function from its inputs and environment to
the outcome shown to the user together with the final file system.
-/

/-- Exit status and captured diagnostic (stderr) stream of an external
process started with subprocess.run(..., stderr=subprocess.PIPE). -/
structure ProcResult where
  returncode : Int
  stderr : String

deriving instance DecidableEq for ProcResult

/-- The file system, as the set (list) of paths that currently exist. -/
abbrev FileSys := List String

/-- The cleanup idiom `if os.path.exists(p): os.remove(p)` (and plain
`os.remove(p)` on a path known to exist): afterwards `p` is gone. -/
def removeIfExists (p : String) (fs : FileSys) : FileSys :=
  fs.filter (fun q => q != p)

theorem mem_removeIfExists (a p : String) (fs : FileSys) :
    a ∈ removeIfExists p fs ↔ a ∈ fs ∧ a ≠ p := by
  simp [removeIfExists, List.mem_filter]

/-- The ffmpeg argument list built by `extract_audio_from_video`
(src/record.py lines 26–35, src/recordstreamlit.py lines 28–37). -/
def ffmpeg_command (video_path audio_path : String) : List String :=
  ["ffmpeg",
   "-i", video_path,
   "-vn",
   "-acodec", "pcm_s16le",
   "-ar", "16000",
   "-ac", "1",
   "-y",
   audio_path]

/-- What a call to `extract_audio_from_video` leaves behind: the value
returned or the error raised, the file system after the call, and the
command line handed to the external transcoder. -/
structure ExtractTrace where
  result : Except String String
  fs : FileSys
  command : List String

/-- `extract_audio_from_video` (src/record.py lines 21–41; the copy in
src/recordstreamlit.py lines 23–43 differs only in how stderr bytes are
decoded).  `tempfile.NamedTemporaryFile(delete=False, suffix=".wav")`
hands out a fresh name ending in ".wav" and creates the file, modelled
by consing `tmpBase ++ ".wav"` onto the file system; `run` models the
external ffmpeg process.  A non-zero exit status raises RuntimeError
carrying the decoded stderr text; otherwise the audio path is
returned.  No branch removes the temporary .wav file. -/
def extract_audio_from_video (run : List String → ProcResult)
    (video_path : String) (tmpBase : String) (fs : FileSys) : ExtractTrace :=
  let audio_path := tmpBase ++ ".wav"
  let fs1 := audio_path :: fs
  let command := ffmpeg_command video_path audio_path
  let result := run command
  if result.returncode ≠ 0 then
    ⟨Except.error ("FFmpeg failed:\n" ++ result.stderr), fs1, command⟩
  else
    ⟨Except.ok audio_path, fs1, command⟩

theorem extract_audio_from_video_command (run : List String → ProcResult)
    (video_path tmpBase : String) (fs : FileSys) :
    (extract_audio_from_video run video_path tmpBase fs).command =
      ffmpeg_command video_path (tmpBase ++ ".wav") := by
  simp only [extract_audio_from_video]
  split <;> rfl

theorem extract_audio_from_video_fs (run : List String → ProcResult)
    (video_path tmpBase : String) (fs : FileSys) :
    (extract_audio_from_video run video_path tmpBase fs).fs =
      (tmpBase ++ ".wav") :: fs := by
  simp only [extract_audio_from_video]
  split <;> rfl

theorem extract_audio_from_video_result (run : List String → ProcResult)
    (video_path tmpBase : String) (fs : FileSys) :
    (extract_audio_from_video run video_path tmpBase fs).result =
      (if (run (ffmpeg_command video_path (tmpBase ++ ".wav"))).returncode ≠ 0 then
        Except.error
          ("FFmpeg failed:\n" ++
            (run (ffmpeg_command video_path (tmpBase ++ ".wav"))).stderr)
      else
        Except.ok (tmpBase ++ ".wav")) := by
  unfold extract_audio_from_video
  split <;> simp [*]

/-- The message st.error shows when the transcoder binary is absent. -/
def ffmpeg_missing_msg : String :=
  "❌ FFmpeg not found. Install FFmpeg and add it to PATH."

/-- `check_ffmpeg` (src/record.py lines 13–18, src/recordstreamlit.py
lines 15–20), run once at startup: it tries `ffmpeg -version`; when the
binary is absent subprocess.run raises FileNotFoundError, which the
`except` clause catches and reports with st.error.  The value is the
list of error messages shown; `Except.ok` on every branch records that
the function returns normally instead of propagating the exception. -/
def check_ffmpeg (ffmpegOnPath : Bool) : Except String (List String) :=
  if ffmpegOnPath then
    Except.ok []
  else
    Except.ok [ffmpeg_missing_msg]

/-- C6: when the external transcoder binary is absent from PATH,
`check_ffmpeg` reports an error message to the user and returns
normally (never `Except.error`), so startup continues. -/
theorem check_ffmpeg_reports_and_continues :
    (∀ b, ∃ msgs, check_ffmpeg b = Except.ok msgs) ∧
    check_ffmpeg false = Except.ok [ffmpeg_missing_msg] ∧
    ffmpeg_missing_msg ≠ "" ∧
    check_ffmpeg true = Except.ok [] := by
  refine ⟨fun b => ?_, rfl, by decide, rfl⟩
  cases b
  · exact ⟨[ffmpeg_missing_msg], rfl⟩
  · exact ⟨[], rfl⟩

/-- C2: `extract_audio_from_video` raises an error if and only if the
transcoder exits with a non-zero status; the raised message contains the
process's stderr text; on exit status zero it returns the produced
audio path. -/
theorem extract_audio_error_iff_nonzero_exit (run : List String → ProcResult)
    (video_path tmpBase : String) (fs : FileSys) :
    ((∃ msg, (extract_audio_from_video run video_path tmpBase fs).result =
        Except.error msg) ↔
      (run (ffmpeg_command video_path (tmpBase ++ ".wav"))).returncode ≠ 0) ∧
    (∀ msg, (extract_audio_from_video run video_path tmpBase fs).result =
        Except.error msg →
      ∃ pre post,
        msg = pre ++
          (run (ffmpeg_command video_path (tmpBase ++ ".wav"))).stderr ++ post) ∧
    ((run (ffmpeg_command video_path (tmpBase ++ ".wav"))).returncode = 0 →
      (extract_audio_from_video run video_path tmpBase fs).result =
        Except.ok (tmpBase ++ ".wav")) := by
  rw [extract_audio_from_video_result]
  by_cases h : (run (ffmpeg_command video_path (tmpBase ++ ".wav"))).returncode = 0
  · simp [h]
  · refine ⟨by simp [h], ?_, by simp [h]⟩
    intro msg hmsg
    simp [h] at hmsg
    exact ⟨"FFmpeg failed:\n", "", by simp [hmsg]⟩

/-- C4: the transcoder is invoked with exactly the options -vn (drop the
video stream), pcm_s16le samples, 16000 Hz, one channel, overwrite
destination, the source path after -i and the temporary .wav path as
destination (12 arguments in all, so nothing else). -/
theorem ffmpeg_command_exact_options (run : List String → ProcResult)
    (video_path tmpBase : String) (fs : FileSys) :
    (extract_audio_from_video run video_path tmpBase fs).command.head? =
      some "ffmpeg" ∧
    ["-i", video_path] <:+:
      (extract_audio_from_video run video_path tmpBase fs).command ∧
    "-vn" ∈ (extract_audio_from_video run video_path tmpBase fs).command ∧
    ["-acodec", "pcm_s16le"] <:+:
      (extract_audio_from_video run video_path tmpBase fs).command ∧
    ["-ar", "16000"] <:+:
      (extract_audio_from_video run video_path tmpBase fs).command ∧
    ["-ac", "1"] <:+:
      (extract_audio_from_video run video_path tmpBase fs).command ∧
    "-y" ∈ (extract_audio_from_video run video_path tmpBase fs).command ∧
    (extract_audio_from_video run video_path tmpBase fs).command.getLast? =
      some (tmpBase ++ ".wav") ∧
    (∃ base, (extract_audio_from_video run video_path tmpBase fs).command.getLast? =
      some (base ++ ".wav")) ∧
    (extract_audio_from_video run video_path tmpBase fs).command.length = 12 := by
  rw [extract_audio_from_video_command]
  refine ⟨rfl,
    ⟨["ffmpeg"], ["-vn", "-acodec", "pcm_s16le", "-ar", "16000", "-ac", "1", "-y",
      tmpBase ++ ".wav"], rfl⟩,
    by simp [ffmpeg_command],
    ⟨["ffmpeg", "-i", video_path, "-vn"], ["-ar", "16000", "-ac", "1", "-y",
      tmpBase ++ ".wav"], rfl⟩,
    ⟨["ffmpeg", "-i", video_path, "-vn", "-acodec", "pcm_s16le"],
      ["-ac", "1", "-y", tmpBase ++ ".wav"], rfl⟩,
    ⟨["ffmpeg", "-i", video_path, "-vn", "-acodec", "pcm_s16le", "-ar", "16000"],
      ["-y", tmpBase ++ ".wav"], rfl⟩,
    by simp [ffmpeg_command],
    ?_, ⟨tmpBase, ?_⟩, ?_⟩ <;>
  simp [ffmpeg_command]

/-- What a request path shows the user at the end: the success panel
with the transcribed text, the "no speech detected" warning, or an
error panel. -/
inductive Outcome where
  | success (text : String)
  | noSpeech
  | failure (msg : String)

deriving instance DecidableEq for Outcome

/-- Result handling of tab1 of src/record.py (lines 122–130): the text
of a returned transcription is always shown as success (there is no
emptiness check); an exception becomes the failure panel.  `tr` is the
outcome of `transcribe_audio` (`Except.error` models a raised
exception, `Except.ok` carries `result.get("text", "")`). -/
def record_tab1_outcome (tr : Except String String) : Outcome :=
  match tr with
  | Except.ok text => Outcome.success text
  | Except.error e => Outcome.failure ("❌ Transcription failed: " ++ e)

/-- Result handling of tab2 of src/record.py (lines 167–173): success
is shown for any returned text, with no emptiness check. -/
def record_tab2_outcome (tr : Except String String) : Outcome :=
  match tr with
  | Except.ok text => Outcome.success text
  | Except.error e => Outcome.failure ("❌ Transcription failed: " ++ e)

/-- Result handling of tab3 of src/record.py (lines 212–219): success
is shown for any returned text, with no emptiness check. -/
def record_tab3_outcome (tr : Except String String) : Outcome :=
  match tr with
  | Except.ok text => Outcome.success text
  | Except.error e => Outcome.failure ("❌ Error: " ++ e)

/-- Result handling of tab1 of src/recordstreamlit.py (lines 83–91):
`if result["text"].strip():` shows success, else the "No speech
detected" warning; an exception becomes the failure panel. -/
def rs_tab1_outcome (tr : Except String String) : Outcome :=
  match tr with
  | Except.ok text =>
    if text.trim ≠ "" then Outcome.success text else Outcome.noSpeech
  | Except.error e => Outcome.failure ("❌ Transcription failed: " ++ e)

/-- Result handling of tab2 of src/recordstreamlit.py (lines 135–143). -/
def rs_tab2_outcome (tr : Except String String) : Outcome :=
  match tr with
  | Except.ok text =>
    if text.trim ≠ "" then Outcome.success text else Outcome.noSpeech
  | Except.error e => Outcome.failure ("❌ Transcription failed: " ++ e)

/-- Result handling of the uploaded-video path of tab3 of
src/recordstreamlit.py (lines 162–169). -/
def rs_tab3_video_outcome (tr : Except String String) : Outcome :=
  match tr with
  | Except.ok text =>
    if text.trim ≠ "" then Outcome.success text else Outcome.noSpeech
  | Except.error e => Outcome.failure ("❌ Error: " ++ e)

/-- Result handling of the YouTube path of tab3 of
src/recordstreamlit.py (lines 183–192). -/
def rs_tab3_yt_outcome (tr : Except String String) : Outcome :=
  match tr with
  | Except.ok text =>
    if text.trim ≠ "" then Outcome.success text else Outcome.noSpeech
  | Except.error e => Outcome.failure ("❌ Error: " ++ e)

/-- The uploaded-video request handler of tab3 of src/record.py (lines
199–225): the upload is written to a fresh `tempfile.mktemp` path
(which creates the file), `audio_path` starts as None, the audio is
extracted and transcribed, and the finally block removes `video_path`
when it exists and `audio_path` when it was assigned and exists.  When
`extract_audio_from_video` raises, `audio_path` is still None, so the
finally block only removes `video_path`.  `transcribe` models
`transcribe_audio`.  Returns the outcome shown and the final file
system. -/
def record_tab3_video_handler (run : List String → ProcResult)
    (transcribe : String → Except String String)
    (videoTmp tmpBase : String) (fs : FileSys) : Outcome × FileSys :=
  let fs0 := videoTmp :: fs
  let t := extract_audio_from_video run videoTmp tmpBase fs0
  match t.result with
  | Except.error e =>
    (record_tab3_outcome (Except.error e), removeIfExists videoTmp t.fs)
  | Except.ok audio_path =>
    (record_tab3_outcome (transcribe audio_path),
      removeIfExists audio_path (removeIfExists videoTmp t.fs))

/-- The audio-file upload handler of tab1 of src/record.py (lines
112–130): the upload is written to a fresh temporary path and the
finally block removes it unconditionally. -/
def record_tab1_handler (transcribe : String → Except String String)
    (tmpPath : String) (fs : FileSys) : Outcome × FileSys :=
  let fs0 := tmpPath :: fs
  (record_tab1_outcome (transcribe tmpPath), removeIfExists tmpPath fs0)

/-- The live-capture handler of tab2 of src/record.py (lines 146–177):
the captured frames are combined and written to a fresh temporary .wav
(NamedTemporaryFile(delete=False, suffix=".wav") creates the file,
sf.write fills it), the file is transcribed inside the try block, and
the finally block removes the .wav when it exists — on success, on a
transcription failure, and on any other exception raised after the
file was created. -/
def record_tab2_handler (transcribe : String → Except String String)
    (tmpBase : String) (fs : FileSys) : Outcome × FileSys :=
  let wav_path := tmpBase ++ ".wav"
  let fs0 := wav_path :: fs
  (record_tab2_outcome (transcribe wav_path), removeIfExists wav_path fs0)

/-- The YouTube (downloaded-video) request handler of tab3 of
src/recordstreamlit.py (lines 178–197; the copy in src/record.py lines
228–256 is commented out): video_path = tempfile.mktemp(suffix=".mp4")
yields a fresh name without creating a file; subprocess.run(...,
shell=True, check=True) raises CalledProcessError when the downloader
exits non-zero (no destination file produced then), and otherwise the
downloader has written the destination; audio extraction and
transcription follow; the finally block removes video_path when it
exists and audio_path when that name was assigned and the file exists.
`ytRes` models the downloader process and `ytErrText` the str(e)
rendering of the CalledProcessError. -/
def rs_tab3_yt_handler (ytRes : ProcResult) (ytErrText : String)
    (run : List String → ProcResult)
    (transcribe : String → Except String String)
    (videoTmp tmpBase : String) (fs : FileSys) : Outcome × FileSys :=
  if ytRes.returncode ≠ 0 then
    (Outcome.failure ("❌ YouTube download failed:\n" ++ ytErrText),
      removeIfExists videoTmp fs)
  else
    let fs0 := videoTmp :: fs
    let t := extract_audio_from_video run videoTmp tmpBase fs0
    match t.result with
    | Except.error e =>
      (rs_tab3_yt_outcome (Except.error e), removeIfExists videoTmp t.fs)
    | Except.ok audio_path =>
      (rs_tab3_yt_outcome (transcribe audio_path),
        removeIfExists audio_path (removeIfExists videoTmp t.fs))

/-- C1 counterexample: a concrete uploaded-video request in which the
transcoder exits with status 1.  The handler's finally block removes
the temporary video file, but the temporary .wav file created inside
`extract_audio_from_video` survives the request, so not every
temporary file is deleted on this exit path. -/
theorem record_tab3_leaks_wav_on_ffmpeg_failure :
    "/tmp/audio.wav" ∈
      (record_tab3_video_handler (fun _ => ⟨1, "boom"⟩)
        (fun _ => Except.ok "hello") "/tmp/video.mp4" "/tmp/audio" []).2 ∧
    (record_tab3_video_handler (fun _ => ⟨1, "boom"⟩)
        (fun _ => Except.ok "hello") "/tmp/video.mp4" "/tmp/audio" []).2 =
      ["/tmp/audio.wav"] := by
  decide

/-- C1 (amended): on every input path — uploaded audio (tab1), live
capture (tab2), uploaded video (tab3) and the downloaded-video
(YouTube) path — every temporary file whose path the request handler
holds is deleted on every exit path: the uploaded-audio and
live-capture temporaries always, the temporary video file always, and
the temporary .wav file whenever the transcoder succeeded (whether or
not transcription then raised); but when the transcoder exits non-zero
the .wav file created inside `extract_audio_from_video` is not deleted
and survives the request, on both paths that extract audio from a
video. -/
theorem record_tab3_cleanup_except_wav_on_failure
    (run : List String → ProcResult)
    (transcribe : String → Except String String)
    (videoTmp tmpBase : String) (fs : FileSys)
    (hne : videoTmp ≠ tmpBase ++ ".wav") :
    videoTmp ∉ (record_tab3_video_handler run transcribe videoTmp tmpBase fs).2 ∧
    ((run (ffmpeg_command videoTmp (tmpBase ++ ".wav"))).returncode = 0 →
      tmpBase ++ ".wav" ∉
        (record_tab3_video_handler run transcribe videoTmp tmpBase fs).2) ∧
    ((run (ffmpeg_command videoTmp (tmpBase ++ ".wav"))).returncode ≠ 0 →
      tmpBase ++ ".wav" ∈
        (record_tab3_video_handler run transcribe videoTmp tmpBase fs).2) ∧
    (∀ (tr : String → Except String String) (tmpPath : String) (fs0 : FileSys),
      tmpPath ∉ (record_tab1_handler tr tmpPath fs0).2) ∧
    (∀ (tr : String → Except String String) (base : String) (fs0 : FileSys),
      base ++ ".wav" ∉ (record_tab2_handler tr base fs0).2) ∧
    (∀ (ytRes : ProcResult) (ytErrText : String),
      videoTmp ∉
        (rs_tab3_yt_handler ytRes ytErrText run transcribe videoTmp tmpBase fs).2) ∧
    (∀ (ytRes : ProcResult) (ytErrText : String), ytRes.returncode = 0 →
      (run (ffmpeg_command videoTmp (tmpBase ++ ".wav"))).returncode = 0 →
      tmpBase ++ ".wav" ∉
        (rs_tab3_yt_handler ytRes ytErrText run transcribe videoTmp tmpBase fs).2) ∧
    (∀ (ytRes : ProcResult) (ytErrText : String), ytRes.returncode = 0 →
      (run (ffmpeg_command videoTmp (tmpBase ++ ".wav"))).returncode ≠ 0 →
      tmpBase ++ ".wav" ∈
        (rs_tab3_yt_handler ytRes ytErrText run transcribe videoTmp tmpBase fs).2) := by
  have hres := extract_audio_from_video_result run videoTmp tmpBase (videoTmp :: fs)
  have hfs := extract_audio_from_video_fs run videoTmp tmpBase (videoTmp :: fs)
  have htab1 : ∀ (tr : String → Except String String) (tmpPath : String)
      (fs0 : FileSys), tmpPath ∉ (record_tab1_handler tr tmpPath fs0).2 := by
    intro tr tmpPath fs0
    simp [record_tab1_handler, mem_removeIfExists]
  have htab2 : ∀ (tr : String → Except String String) (base : String)
      (fs0 : FileSys), base ++ ".wav" ∉ (record_tab2_handler tr base fs0).2 := by
    intro tr base fs0
    simp [record_tab2_handler, mem_removeIfExists]
  by_cases h : (run (ffmpeg_command videoTmp (tmpBase ++ ".wav"))).returncode = 0
  · simp [h] at hres
    refine ⟨?_, fun _ => ?_, fun hc => absurd h hc, htab1, htab2,
      fun ytRes ytErrText => ?_, fun ytRes ytErrText hyt _ => ?_,
      fun ytRes ytErrText hyt hc => absurd h hc⟩
    · simp [record_tab3_video_handler, hres, hfs, mem_removeIfExists]
    · simp [record_tab3_video_handler, hres, hfs, mem_removeIfExists]
    · by_cases hy : ytRes.returncode = 0 <;>
        simp [rs_tab3_yt_handler, hy, hres, hfs, mem_removeIfExists]
    · simp [rs_tab3_yt_handler, hyt, hres, hfs, mem_removeIfExists]
  · simp [h] at hres
    refine ⟨?_, fun hc => absurd hc h, fun _ => ?_, htab1, htab2,
      fun ytRes ytErrText => ?_, fun ytRes ytErrText hyt hc => absurd hc h,
      fun ytRes ytErrText hyt _ => ?_⟩
    · simp [record_tab3_video_handler, hres, hfs, mem_removeIfExists]
    · simp [record_tab3_video_handler, hres, hfs, mem_removeIfExists, Ne.symm hne]
    · by_cases hy : ytRes.returncode = 0 <;>
        simp [rs_tab3_yt_handler, hy, hres, hfs, mem_removeIfExists]
    · simp [rs_tab3_yt_handler, hyt, hres, hfs, mem_removeIfExists, Ne.symm hne]

/-- Witness for the amended C1 theorem at a concrete request: transcoder
exit status 0 and a transcription failure leave no temporary file on
the uploaded-video path; the live-capture temporary is gone after a
transcription failure; and a downloader failure leaves no temporary on
the YouTube path. -/
theorem record_tab3_cleanup_witness :
    "/tmp/v.mp4" ∉
      (record_tab3_video_handler (fun _ => ProcResult.mk 0 "")
        (fun _ => Except.error "model failed") "/tmp/v.mp4" "/tmp/a" []).2 ∧
    "/tmp/a" ++ ".wav" ∉
      (record_tab3_video_handler (fun _ => ProcResult.mk 0 "")
        (fun _ => Except.error "model failed") "/tmp/v.mp4" "/tmp/a" []).2 ∧
    "/tmp/a" ++ ".wav" ∉
      (record_tab2_handler (fun _ => Except.error "model failed") "/tmp/a" []).2 ∧
    "/tmp/v.mp4" ∉
      (rs_tab3_yt_handler (ProcResult.mk 1 "expired cookies") "err"
        (fun _ => ProcResult.mk 0 "") (fun _ => Except.error "model failed")
        "/tmp/v.mp4" "/tmp/a" []).2 := by
  have h := record_tab3_cleanup_except_wav_on_failure (fun _ => ProcResult.mk 0 "")
    (fun _ => Except.error "model failed") "/tmp/v.mp4" "/tmp/a" [] (by decide)
  exact ⟨h.1, h.2.1 rfl,
    h.2.2.2.2.1 (fun _ => Except.error "model failed") "/tmp/a" [],
    h.2.2.2.2.2.1 (ProcResult.mk 1 "expired cookies") "err"⟩

/-- C3 counterexample: in tab1 of src/record.py a transcription whose
text is empty (or whitespace-only) is shown as the success outcome,
not as a distinct "no speech detected" outcome. -/
theorem record_tab1_empty_text_shown_as_success :
    record_tab1_outcome (Except.ok "") = Outcome.success "" ∧
    record_tab1_outcome (Except.ok "") ≠ Outcome.noSpeech ∧
    record_tab1_outcome (Except.ok "   ") ≠ Outcome.noSpeech := by
  decide

/-- C3 (amended): in src/recordstreamlit.py every input path (uploaded
audio, live capture, uploaded video, downloaded video) reports an empty
or whitespace-only transcription as the distinct "no speech detected"
outcome, which differs from both the success outcome and the
transcription-failure outcome; in src/record.py no path does — there a
returned transcription is always shown as success, even when empty. -/
theorem no_speech_outcome_distinct :
    (∀ text, text.trim = "" →
      rs_tab1_outcome (Except.ok text) = Outcome.noSpeech ∧
      rs_tab2_outcome (Except.ok text) = Outcome.noSpeech ∧
      rs_tab3_video_outcome (Except.ok text) = Outcome.noSpeech ∧
      rs_tab3_yt_outcome (Except.ok text) = Outcome.noSpeech) ∧
    (∀ text, text.trim ≠ "" →
      rs_tab1_outcome (Except.ok text) = Outcome.success text ∧
      rs_tab2_outcome (Except.ok text) = Outcome.success text ∧
      rs_tab3_video_outcome (Except.ok text) = Outcome.success text ∧
      rs_tab3_yt_outcome (Except.ok text) = Outcome.success text) ∧
    (∀ e, rs_tab1_outcome (Except.error e) =
      Outcome.failure ("❌ Transcription failed: " ++ e)) ∧
    (∀ text msg, Outcome.noSpeech ≠ Outcome.success text ∧
      Outcome.noSpeech ≠ Outcome.failure msg) ∧
    (∀ text,
      record_tab1_outcome (Except.ok text) = Outcome.success text ∧
      record_tab2_outcome (Except.ok text) = Outcome.success text ∧
      record_tab3_outcome (Except.ok text) = Outcome.success text) := by
  refine ⟨fun text h => ?_, fun text h => ?_, fun e => rfl,
    fun text msg => ⟨by simp, by simp⟩, fun text => ⟨rfl, rfl, rfl⟩⟩
  · simp [rs_tab1_outcome, rs_tab2_outcome, rs_tab3_video_outcome,
      rs_tab3_yt_outcome, h]
  · simp [rs_tab1_outcome, rs_tab2_outcome, rs_tab3_video_outcome,
      rs_tab3_yt_outcome, h]

/-- Cookie upload handling in tab3 of src/record.py (lines 186–193):
the uploaded bytes are written with open("cookies.txt", "wb"), creating
or overwriting that fixed relative path in the working directory; the
returned path is what the downloader is later pointed at. -/
def tab3_cookie_upload (fs : FileSys) : String × FileSys :=
  let cookie_path := "cookies.txt"
  (cookie_path, cookie_path :: fs)

/-- C10: an uploaded cookies file always lands at the fixed relative
path "cookies.txt" — never at a fresh per-request temporary path — and
no exit path of the tab3 request handler removes that file, so it
persists across requests of the process. -/
theorem cookies_fixed_path_never_deleted
    (run : List String → ProcResult)
    (transcribe : String → Except String String)
    (videoTmp tmpBase : String) (fs : FileSys)
    (hv : videoTmp ≠ "cookies.txt") (hw : tmpBase ++ ".wav" ≠ "cookies.txt") :
    (∀ fs0, (tab3_cookie_upload fs0).1 = "cookies.txt" ∧
      "cookies.txt" ∈ (tab3_cookie_upload fs0).2) ∧
    ("cookies.txt" ∈ fs →
      "cookies.txt" ∈
        (record_tab3_video_handler run transcribe videoTmp tmpBase fs).2) := by
  refine ⟨fun fs0 => ⟨rfl, by simp [tab3_cookie_upload]⟩, fun hmem => ?_⟩
  have hres := extract_audio_from_video_result run videoTmp tmpBase (videoTmp :: fs)
  have hfs := extract_audio_from_video_fs run videoTmp tmpBase (videoTmp :: fs)
  by_cases h : (run (ffmpeg_command videoTmp (tmpBase ++ ".wav"))).returncode = 0 <;>
    simp [h] at hres <;>
    simp [record_tab3_video_handler, hres, hfs, mem_removeIfExists, hmem,
      Ne.symm hv, Ne.symm hw]

/-- Witness for the C10 theorem at a concrete request in which the
transcoder fails: cookies.txt still exists afterwards. -/
theorem cookies_fixed_path_witness :
    "cookies.txt" ∈
      (record_tab3_video_handler (fun _ => ProcResult.mk 1 "boom")
        (fun _ => Except.ok "text") "/tmp/v.mp4" "/tmp/a" ["cookies.txt"]).2 := by
  have h := cookies_fixed_path_never_deleted (fun _ => ProcResult.mk 1 "boom")
    (fun _ => Except.ok "text") "/tmp/v.mp4" "/tmp/a" ["cookies.txt"]
    (by decide) (by decide)
  exact h.2 (by decide)

/-- Environment of one `download_youtube_video` call (src/record.py
lines 44–80): whether the yt-dlp binary is on PATH, the exit status and
stderr of the yt-dlp process (text=True, check=False), and whether the
destination file exists afterwards and how many bytes it has. -/
structure DownloadEnv where
  ytDlpOnPath : Bool
  res : ProcResult
  fileProduced : Bool
  fileSize : Nat

deriving instance DecidableEq for DownloadEnv

/-- The message raised when yt-dlp exits zero but the output file is
missing or smaller than 50000 bytes (src/record.py lines 73–78). -/
def yt_cookie_error_msg : String :=
  "❌ YouTube download failed.\nInvalid/empty file.\n➡️ Your cookies.txt is expired OR YouTube blocked the server."

/-- `download_youtube_video` (src/record.py lines 44–80): makes a fresh
temporary .mp4 destination, raises when yt-dlp is absent from PATH,
runs yt-dlp, raises with the process's stderr on a non-zero exit
status, raises the cookies/blocking message when the exit status is
zero but the file is missing or under 50000 bytes, and otherwise
returns the destination path. -/
def download_youtube_video (env : DownloadEnv) (tmpVideo : String) :
    Except String String :=
  if env.ytDlpOnPath = false then
    Except.error "❌ 'yt-dlp' not found. Install yt-dlp and ensure it's in PATH."
  else if env.res.returncode ≠ 0 then
    Except.error ("yt-dlp error:\n" ++ env.res.stderr)
  else if env.fileProduced = false ∨ env.fileSize < 50000 then
    Except.error yt_cookie_error_msg
  else
    Except.ok tmpVideo

/-- C5: with the downloader binary present, `download_youtube_video`
raises whenever the downloader exits non-zero (stderr text in the
message), raises the expired-cookies/server-blocking message whenever
the downloader exits zero but the file is missing or under 50000
bytes, returns the downloaded path otherwise, and raises in no other
case. -/
theorem download_youtube_video_failure_taxonomy (env : DownloadEnv)
    (tmpVideo : String) (h : env.ytDlpOnPath = true) :
    (env.res.returncode ≠ 0 →
      ∃ pre post, download_youtube_video env tmpVideo =
        Except.error (pre ++ env.res.stderr ++ post)) ∧
    (env.res.returncode = 0 → env.fileProduced = false ∨ env.fileSize < 50000 →
      download_youtube_video env tmpVideo = Except.error yt_cookie_error_msg) ∧
    (env.res.returncode = 0 → env.fileProduced = true → 50000 ≤ env.fileSize →
      download_youtube_video env tmpVideo = Except.ok tmpVideo) ∧
    (∀ msg, download_youtube_video env tmpVideo = Except.error msg →
      env.res.returncode ≠ 0 ∨ env.fileProduced = false ∨ env.fileSize < 50000) := by
  refine ⟨fun hrc => ?_, fun hrc hfile => ?_, fun hrc hfile hsize => ?_,
    fun msg hmsg => ?_⟩
  · exact ⟨"yt-dlp error:\n", "", by simp [download_youtube_video, h, hrc]⟩
  · simp [download_youtube_video, h, hrc, hfile]
  · simp [download_youtube_video, h, hrc, hfile, Nat.not_lt.mpr hsize]
  · by_cases hrc : env.res.returncode = 0
    · by_cases hfile : env.fileProduced = false ∨ env.fileSize < 50000
      · exact Or.inr hfile
      · simp [download_youtube_video, h, hrc, hfile] at hmsg
    · exact Or.inl hrc

/-- Witness for the C5 theorem: a concrete call in which yt-dlp is
present, exits zero, but produces no file — the cookies/blocking error
is raised. -/
theorem download_youtube_video_witness :
    download_youtube_video (DownloadEnv.mk true (ProcResult.mk 0 "") false 0)
      "/tmp/y.mp4" = Except.error yt_cookie_error_msg := by
  have h := download_youtube_video_failure_taxonomy
    (DownloadEnv.mk true (ProcResult.mk 0 "") false 0) "/tmp/y.mp4" rfl
  exact h.2.1 rfl (Or.inl rfl)

/-- The per-process cache `@st.cache_resource` installs on
`load_whisper_model` (src/record.py lines 83–85, src/recordstreamlit.py
lines 46–48): a table keyed by the function's argument (the model
size).  Loaded model objects are represented by numeric object ids;
`loads` counts the calls to `whisper.load_model` that actually ran, and
doubles as the id of the next freshly loaded model. -/
structure ModelCache where
  entries : List (String × Nat)
  loads : Nat

deriving instance DecidableEq for ModelCache

/-- `load_whisper_model` under `@st.cache_resource`: a hit returns the
cached object unchanged; a miss calls `whisper.load_model`, stores the
new object under its size, and returns it.  No entry is ever
removed (st.cache_resource has no eviction policy here). -/
def load_whisper_model (size : String) (c : ModelCache) : Nat × ModelCache :=
  match c.entries.find? (fun e => e.1 == size) with
  | some e => (e.2, c)
  | none => (c.loads, ⟨(size, c.loads) :: c.entries, c.loads + 1⟩)

/-- C8: the loaded model is a per-process singleton keyed by size: a
second request with the same size returns the very same cached object
and does not reload (the whole cache state is unchanged, so the load
counter is too), and no cached entry is ever evicted by any call. -/
theorem load_whisper_model_singleton (size size2 : String) (c : ModelCache) :
    ((load_whisper_model size (load_whisper_model size c).2).1 =
      (load_whisper_model size c).1 ∧
     (load_whisper_model size (load_whisper_model size c).2).2 =
      (load_whisper_model size c).2) ∧
    (∀ e, e ∈ c.entries → e ∈ (load_whisper_model size2 c).2.entries) := by
  constructor
  · cases hfind : c.entries.find? (fun e => e.1 == size) with
    | some e =>
      constructor <;> simp [load_whisper_model, hfind]
    | none =>
      constructor <;> simp [load_whisper_model, hfind]
  · intro e he
    cases hfind : c.entries.find? (fun e => e.1 == size2) with
    | some e2 => simp [load_whisper_model, hfind, he]
    | none => simp [load_whisper_model, hfind, he]

/-- The shell command string built by the YouTube path of tab3 of
src/recordstreamlit.py (line 181): the f-string interpolates the
temporary destination path and the raw user-supplied URL, each between
plain double quotes, into one string that subprocess.run executes with
shell=True. -/
def yt_shell_command (video_path video_url : String) : String :=
  "yt-dlp -f best -o \"" ++ video_path ++ "\" \"" ++ video_url ++ "\""

/-- A minimal fragment of POSIX shell command-line splitting, enough
for double quotes and the command separator: a double quote toggles
quoting and is consumed; a semicolon outside quotes ends the current
command; everything else joins the current command. -/
def shellSplitAux : List Char → Bool → List Char → List (List Char)
  | [], _, cur => [cur.reverse]
  | c :: rest, inQ, cur =>
    if c = '"' then shellSplitAux rest (!inQ) cur
    else if c = ';' ∧ inQ = false then cur.reverse :: shellSplitAux rest false []
    else shellSplitAux rest inQ (c :: cur)

/-- Leading and trailing blanks of a word, dropped. -/
def trimSpaces (l : List Char) : List Char :=
  ((l.dropWhile (fun c => c = ' ')).reverse.dropWhile (fun c => c = ' ')).reverse

/-- The commands the shell runs for a given command line in that
fragment: the semicolon-separated pieces, trimmed, empty ones
dropped. -/
def executedCommands (s : String) : List String :=
  ((shellSplitAux s.toList false []).map (fun l => String.mk (trimSpaces l))).filter
    (fun c => c != "")

/-- C9: the executed shell command line contains the raw URL text
verbatim, and for a URL containing shell metacharacters the shell runs
a second command besides the intended downloader invocation — here
`echo pwned`, which is not a yt-dlp invocation. -/
theorem yt_shell_command_injection :
    (∀ p u, ∃ pre post, yt_shell_command p u = pre ++ u ++ post) ∧
    executedCommands (yt_shell_command "/tmp/yt.mp4" "x\"; echo pwned; \"") =
      ["yt-dlp -f best -o /tmp/yt.mp4 x", "echo pwned"] ∧
    "echo pwned" ∈
      executedCommands (yt_shell_command "/tmp/yt.mp4" "x\"; echo pwned; \"") ∧
    (∃ c ∈ executedCommands (yt_shell_command "/tmp/yt.mp4" "x\"; echo pwned; \""),
      List.isPrefixOf "yt-dlp".toList c.toList = false) := by
  refine ⟨fun p u => ⟨"yt-dlp -f best -o \"" ++ p ++ "\" \"", "\"", rfl⟩, ?_, ?_, ?_⟩ <;>
    decide

/-- A numpy array as the live-capture path sees it: the result of
av.AudioFrame.to_ndarray(), either one-dimensional (already mono) or
two-dimensional with the channel axis first. -/
inductive NDArr where
  | one (samples : List ℚ)
  | two (rows : List (List ℚ))

deriving instance DecidableEq for NDArr

/-- numpy's arr.mean(axis=0) on a two-dimensional array: the
column-wise mean across the channel axis. -/
def meanAxis0 (rows : List (List ℚ)) : List ℚ :=
  match rows with
  | [] => []
  | r :: _ =>
    (List.range r.length).map (fun j =>
      (rows.map (fun row => row.getD j 0)).sum / (rows.length : ℚ))

def NDArr.ndim : NDArr → Nat
  | NDArr.one _ => 1
  | NDArr.two _ => 2

def NDArr.rows : NDArr → List (List ℚ)
  | NDArr.one _ => []
  | NDArr.two r => r

/-- Flattening an array for np.concatenate; after the mono reduction
every concatenated array is one-dimensional. -/
def NDArr.flat : NDArr → List ℚ
  | NDArr.one xs => xs
  | NDArr.two rows => rows.flatten

/-- The loop body of the tab2 frame accumulation of src/record.py
(lines 151–155): arr = frame.to_ndarray(); if arr.ndim > 1, arr becomes
arr.mean(axis=0); arrays.append(arr). -/
def record_frame_step (arrays : List (List ℚ)) (frame : NDArr) : List (List ℚ) :=
  let arr := frame
  let arr := if arr.ndim > 1 then NDArr.one (meanAxis0 arr.rows) else arr
  arrays ++ [arr.flat]

/-- The combined waveform of the live-capture path of src/record.py
(lines 146–157): the loop over the captured frames followed by
np.concatenate (src/recordstreamlit.py line 122 builds the same value
as a list comprehension). -/
def record_tab2_combined (frames : List NDArr) : List ℚ :=
  (frames.foldl record_frame_step []).flatten

/-- The spec's description of one frame's contribution: its sample
array, with a multi-channel (multi-dimensional) array replaced by its
mean across the channel axis. -/
def specFrameSamples : NDArr → List ℚ
  | NDArr.one xs => xs
  | NDArr.two rows => meanAxis0 rows

/-- The spec's description of the whole waveform: map each frame to its
mono sample array and concatenate in frame order. -/
def spec_live_combined (frames : List NDArr) : List ℚ :=
  (frames.map specFrameSamples).flatten

/-- Configuration of a st.slider call: lower bound, upper bound and
default value. -/
structure SliderCfg where
  minVal : Nat
  maxVal : Nat
  defaultVal : Nat

/-- The recording-duration slider (src/record.py line 106,
src/recordstreamlit.py line 69): bounds 1 and 20 seconds, default 5;
its value is the timeout handed to audio_receiver.get_frames. -/
def duration_slider : SliderCfg := ⟨1, 20, 5⟩

theorem record_frame_step_eq (arrays : List (List ℚ)) (frame : NDArr) :
    record_frame_step arrays frame = arrays ++ [specFrameSamples frame] := by
  cases frame <;> rfl

theorem foldl_record_frame_step (frames : List NDArr) (acc : List (List ℚ)) :
    frames.foldl record_frame_step acc = acc ++ frames.map specFrameSamples := by
  induction frames generalizing acc with
  | nil => simp
  | cons f rest ih => simp [record_frame_step_eq, ih]

/-- C7: for every non-empty list of captured frames the live-capture
path produces exactly the concatenation, in frame order, of each
frame's sample array, with multi-channel arrays averaged across the
channel axis; and the duration slider ranges over 1..20 seconds with
default 5. -/
theorem record_tab2_combined_eq_spec (frames : List NDArr)
    (h : frames ≠ []) :
    record_tab2_combined frames = spec_live_combined frames ∧
    duration_slider.minVal = 1 ∧ duration_slider.maxVal = 20 ∧
    duration_slider.defaultVal = 5 := by
  refine ⟨?_, rfl, rfl, rfl⟩
  simp [record_tab2_combined, spec_live_combined, foldl_record_frame_step]

/-- Witness for the C7 theorem on a concrete two-frame capture: a
stereo frame averaged to mono followed by a mono frame. -/
theorem record_tab2_combined_witness :
    record_tab2_combined [NDArr.two [[1, 3], [3, 5]], NDArr.one [2]] =
      spec_live_combined [NDArr.two [[1, 3], [3, 5]], NDArr.one [2]] ∧
    duration_slider.minVal = 1 ∧ duration_slider.maxVal = 20 ∧
    duration_slider.defaultVal = 5 :=
  record_tab2_combined_eq_spec [NDArr.two [[1, 3], [3, 5]], NDArr.one [2]]
    (by decide)
